import Mathlib

/-!
# Verification of the grub.io join-code and claim-lifecycle protocol

Shallow embedding of the event/post/claim protocol of the grub.io mobile
application. The definitions below are translated from the TypeScript
source:

* `app/create-event.tsx` — join-code generation (`generateJoinCode`),
  uniqueness check (`isJoinCodeUnique`) and the generate-and-check retry
  loop inside `createEvent`;
* `app/join-event.tsx` — `handleJoinEvent` (typed-code join);
* the QR-scan screen — `barcodeScanned` (QR join, `GRUBIO:` prefix);
* `app/event/[id].tsx` — `claimPost`, `markComplete`, the active-posts
  query (`where completed == false`), the claim-button guard in
  `renderPost`, and the analytics aggregation in `renderAnalyticsTab`;
* `app/event/create-post.tsx` — the document written by `createPost`.

The document store is modeled as plain Lean lists of records; a Firestore
`updateDoc` with a partial field map becomes a record update that leaves
every unmentioned field intact. JavaScript `null`/`undefined` string
fields become `Option String`, together with JavaScript truthiness
(`null`, `undefined` and `""` are falsy) and the string interpolation of
`null` (which renders as the literal text `"null"`).
-/

/-- JavaScript truthiness of a nullable string: `null`/`undefined` and the
empty string are falsy, every other string is truthy. -/
def jsTruthy : Option String → Bool
  | none => false
  | some s => !(s == "")

/-- JavaScript `a || b` on nullable strings: yields `a` when `a` is truthy,
otherwise `b`. -/
def jsOr (a b : Option String) : Option String :=
  if jsTruthy a then a else b

/-- JavaScript template-literal rendering of a nullable string:
interpolating `null` produces the literal text `"null"`. -/
def jsInterp : Option String → String
  | none => "null"
  | some s => s

/-- JavaScript `String.prototype.toUpperCase` restricted to one character
(ASCII range, which covers the join-code alphabet): lowercase letters map
to their uppercase counterpart, everything else is unchanged. -/
def jsToUpperChar (c : Char) : Char :=
  if 'a' ≤ c ∧ c ≤ 'z' then Char.ofNat (c.toNat - 32) else c

/-- JavaScript `s.toUpperCase()` (ASCII semantics), character by
character. -/
def jsToUpper (s : String) : String :=
  String.mk (s.toList.map jsToUpperChar)

/-- JavaScript `s.trim()`: strip leading and trailing whitespace. -/
def jsTrim (s : String) : String :=
  String.mk (((s.toList.dropWhile Char.isWhitespace).reverse.dropWhile Char.isWhitespace).reverse)

/-- JavaScript `s.startsWith(pre)`. -/
def jsStartsWith (s pre : String) : Bool :=
  pre.toList.isPrefixOf s.toList

/-- JavaScript `s.substring(n)`: drop the first `n` characters. -/
def jsSubstringFrom (s : String) (n : Nat) : String :=
  String.mk (s.toList.drop n)

/-- A food post document (`Post` type and the fields written by
`createPost` in `app/event/create-post.tsx`). -/
structure Post where
  id : String
  title : String
  description : String
  location : Option String
  imageUrl : Option String
  userId : String
  userName : Option String
  userEmail : Option String
  claimedBy : Option String
  claimedByName : Option String
  claimedByEmail : Option String
  completed : Bool
  createdAt : Nat
deriving DecidableEq, Repr

/-- An event document (fields written by `createEvent` in
`app/create-event.tsx`). -/
structure Event where
  id : String
  title : String
  description : String
  createdBy : String
  attendees : List String
  joinCode : String
deriving DecidableEq, Repr

/-- A notification document (fields written by the notification branch of
`claimPost` in `app/event/[id].tsx`). -/
structure Notification where
  userId : String
  type : String
  message : String
  eventId : String
  postId : String
  read : Bool
deriving DecidableEq, Repr

/-- The signed-in user (`auth.currentUser`): a uid and a nullable email. -/
structure CurrentUser where
  uid : String
  email : Option String
deriving DecidableEq, Repr

/-- The document written by `createPost` (`app/event/create-post.tsx`):
a fresh post with `claimedBy: null`, `completed: false`. -/
def createPostDoc (postId : String) (user : CurrentUser) (userName : Option String)
    (title description location : String) (imageUrl : Option String)
    (createdAt : Nat) : Post :=
  { id := postId
    title := jsTrim title
    description := jsTrim description
    location := some (jsTrim location)
    imageUrl := imageUrl
    userId := user.uid
    userName := userName
    userEmail := user.email
    claimedBy := none
    claimedByName := none
    claimedByEmail := none
    completed := false
    createdAt := createdAt }

/-- Model of `addDoc` on the posts collection: appends the new document, leaving
every existing document untouched. -/
def addPost (posts : List Post) (p : Post) : List Post :=
  posts ++ [p]

/-- Result of one invocation of `claimPost`: the updated post document and
the list of notification documents the call `addDoc`s (the source adds at
most one). -/
structure ClaimResult where
  post : Post
  newNotifications : List Notification
deriving DecidableEq, Repr

/-- Function `claimPost` from `app/event/[id].tsx`, acting on the post document it
targets. `userName` is the `displayName` read from the claimant's `users`
document (`null` when the document is missing). If the post is already
claimed by the current user the call unclaims it (clearing `claimedBy`,
`claimedByName`, `claimedByEmail`) and emits no notification; otherwise it
writes the claimant into those three fields and, when the post owner is
not the current user, adds exactly one notification addressed to the
owner, with the message
`` `${userName || currentUser.email} claimed your "${postTitle}"` ``. -/
def claimPost (user : CurrentUser) (userName : Option String) (eventId : String)
    (p : Post) : ClaimResult :=
  if p.claimedBy == some user.uid then
    { post := { p with claimedBy := none, claimedByName := none, claimedByEmail := none }
      newNotifications := [] }
  else
    { post := { p with
        claimedBy := some user.uid
        claimedByName := userName
        claimedByEmail := user.email }
      newNotifications :=
        if p.userId != user.uid then
          [{ userId := p.userId
             type := "claim"
             message := jsInterp (jsOr userName user.email)
               ++ " claimed your \"" ++ p.title ++ "\""
             eventId := eventId
             postId := p.id
             read := false }]
        else [] }

/-- Function `markComplete` from `app/event/[id].tsx`: `updateDoc(postRef,
{ completed: true })` — sets `completed` and touches no other field. -/
def markComplete (p : Post) : Post :=
  { p with completed := true }

/-- Function `markComplete` at the store level: the `updateDoc` targets the document
with the given id inside the event's posts collection. -/
def markCompleteStore (posts : List Post) (postId : String) : List Post :=
  posts.map fun p => if p.id == postId then markComplete p else p

/-- The active-posts live query of `app/event/[id].tsx`:
`where("completed", "==", false)` (the `orderBy createdAt desc` clause
only permutes results and does not affect membership). -/
def activeFeed (posts : List Post) : List Post :=
  posts.filter fun p => p.completed == false

/-- The `renderPost` guard `disabled={isClaimed && !isClaimedByMe}`:
the claim button is disabled when the post is claimed by someone other
than the current user. -/
def claimButtonDisabled (user : CurrentUser) (p : Post) : Bool :=
  jsTruthy p.claimedBy && !(p.claimedBy == some user.uid)

/-- The `renderPost` guard `!isOwner`: claim controls are only rendered
for non-owners. -/
def claimButtonShown (user : CurrentUser) (p : Post) : Bool :=
  !(p.userId == user.uid)

/-- The claim action as reachable through the UI: `claimPost` runs only
when `renderPost` shows an enabled claim button for this user; otherwise
nothing is written. -/
def claimPostUI (user : CurrentUser) (userName : Option String) (eventId : String)
    (p : Post) : ClaimResult :=
  if claimButtonShown user p && !(claimButtonDisabled user p) then
    claimPost user userName eventId p
  else
    { post := p, newNotifications := [] }

/-- The analytics aggregates computed by `renderAnalyticsTab` over the
unfiltered post list. -/
structure Analytics where
  totalPosts : Nat
  claimedPosts : Nat
  completedPosts : Nat
  percentSaved : ℤ
  foodWasteLbs : ℚ
deriving DecidableEq, Repr

/-- Aggregation of `renderAnalyticsTab` from `app/event/[id].tsx`:
`totalPosts = allPosts.length`,
`claimedPosts = allPosts.filter(p => p.claimedBy).length` (JS truthiness),
`completedPosts = allPosts.filter(p => p.completed).length`,
`percentSaved = totalPosts > 0 ? Math.round(claimedPosts / totalPosts * 100) : 0`
(for the nonnegative rationals arising here, `Math.round` is
round-half-up, Mathlib's `round`), and `foodWasteLbs = totalPosts * 0.5`. -/
def computeAnalytics (allPosts : List Post) : Analytics :=
  let totalPosts := allPosts.length
  let claimedPosts := (allPosts.filter fun p => jsTruthy p.claimedBy).length
  let completedPosts := (allPosts.filter fun p => p.completed).length
  { totalPosts := totalPosts
    claimedPosts := claimedPosts
    completedPosts := completedPosts
    percentSaved :=
      if totalPosts > 0 then round ((claimedPosts : ℚ) / (totalPosts : ℚ) * 100) else 0
    foodWasteLbs := (totalPosts : ℚ) * (1 / 2) }

/-- The 36-symbol join-code alphabet of `generateJoinCode`
(`app/create-event.tsx`): capital letters and digits. -/
def joinCodeChars : List Char := "ABCDEFGHIJKLMNOPQRSTUVWXYZ0123456789".toList

theorem joinCodeChars_length : (36 : Nat) = joinCodeChars.length := by decide

/-- Function `generateJoinCode` from `app/create-event.tsx`: six characters, each
`chars.charAt(Math.floor(Math.random() * chars.length))`. The random draw
`Math.floor(Math.random() * 36)` always lands in `0..35`, so the source of
randomness is modeled as six samples in `Fin 36`. -/
def generateJoinCode (sample : Fin 6 → Fin 36) : String :=
  String.mk ((List.finRange 6).map fun i => joinCodeChars.get (Fin.cast joinCodeChars_length (sample i)))

/-- A 6-character string over the uppercase-alphanumeric alphabet. -/
def isValidJoinCode (s : String) : Bool :=
  s.length == 6 && s.toList.all fun c => joinCodeChars.contains c

/-- Function `isJoinCodeUnique` from `app/create-event.tsx`: query the events
collection for `joinCode == code`; the code is unique iff the result set
is empty. -/
def isJoinCodeUnique (events : List Event) (code : String) : Bool :=
  (events.filter fun e => e.joinCode == code).isEmpty

/-- The per-creation request data (`addDoc` input besides the join code);
the document id is the one the store assigns. -/
structure EventReq where
  id : String
  uid : String
  title : String
  description : String
deriving DecidableEq, Repr

/-- The event document written by `createEvent`: `createdBy: user.uid`,
`attendees: [user.uid]`, and the allocated join code. -/
def createEventDoc (r : EventReq) (joinCode : String) : Event :=
  { id := r.id
    title := r.title
    description := r.description
    createdBy := r.uid
    attendees := [r.uid]
    joinCode := joinCode }

/-- The generate-and-check retry loop of `createEvent`:
`let joinCode = generateJoinCode(); while (!isJoinCodeUnique(joinCode))
{ joinCode = generateJoinCode(); }`. The source loop is unbounded, so it
is modeled with explicit fuel (`none` = the loop has not terminated
within `fuel` attempts); `rnd n` supplies the six random samples of the
`n`-th attempt. -/
def findUniqueJoinCode (events : List Event) (rnd : ℕ → Fin 6 → Fin 36) :
    ℕ → ℕ → Option String
  | _, 0 => none
  | attempt, fuel + 1 =>
    let code := generateJoinCode (rnd attempt)
    if isJoinCodeUnique events code then some code
    else findUniqueJoinCode events rnd (attempt + 1) fuel

/-- N sequential (non-concurrent) `createEvent` calls: each call allocates
a join code against the current event set and appends its event document.
Returns the final store and the list of codes produced, in order; `rnds k`
is the random stream of the `k`-th creation. -/
def runCreateEvents (fuel : ℕ) (rnds : ℕ → ℕ → Fin 6 → Fin 36) :
    List EventReq → List Event → ℕ → Option (List Event × List String)
  | [], events, _ => some (events, [])
  | r :: rs, events, k =>
    (findUniqueJoinCode events (rnds k) 0 fuel).bind fun code =>
      (runCreateEvents fuel rnds rs (events ++ [createEventDoc r code]) (k + 1)).map
        fun p => (p.1, code :: p.2)

/-- Outcome of a join attempt, as surfaced by the join screens. -/
inductive JoinOutcome where
  | validationError
  | notFound
  | alreadyJoined (eventId : String)
  | joined (eventId : String)
deriving DecidableEq, Repr

/-- Firestore `arrayUnion`: appends the element unless already present
(duplicate-safe set-union update). -/
def arrayUnion (xs : List String) (x : String) : List String :=
  if xs.contains x then xs else xs ++ [x]

/-- The common body of `handleJoinEvent` (`app/join-event.tsx`) and
`barcodeScanned` (QR screen), after code normalization: query events where
`joinCode == code`; empty → Not Found alert, no write; first match whose
`attendees` already contains the user → Already Joined alert, no write;
otherwise `updateDoc` with `attendees: arrayUnion(user.uid)` on the
matched document. -/
def joinByCode (events : List Event) (uid : String) (code : String) :
    List Event × JoinOutcome :=
  match events.find? (fun e => e.joinCode == code) with
  | none => (events, .notFound)
  | some e =>
    if e.attendees.contains uid then
      (events, .alreadyJoined e.id)
    else
      (events.map fun ev =>
        if ev.id == e.id then { ev with attendees := arrayUnion ev.attendees uid } else ev,
       .joined e.id)

/-- Function `handleJoinEvent` from `app/join-event.tsx`: reject blank input
(`!joinCode.trim()`), then normalize the typed code with
`trim().toUpperCase()` and join. -/
def handleJoinEvent (events : List Event) (uid : String) (rawCode : String) :
    List Event × JoinOutcome :=
  if jsTrim rawCode == "" then (events, .validationError)
  else joinByCode events uid (jsToUpper (jsTrim rawCode))

/-- QR payload decoding in `barcodeScanned`:
`data.startsWith("GRUBIO:") ? data.substring(7) : data` — strip the
7-character `GRUBIO:` prefix when present, otherwise use the whole
payload. -/
def qrExtractCode (data : String) : String :=
  if jsStartsWith data "GRUBIO:" then jsSubstringFrom data 7 else data

/-- Function `barcodeScanned` from the QR-join screen: decode the payload,
uppercase it (`joinCode.toUpperCase()`), and join. -/
def barcodeScanned (events : List Event) (uid : String) (data : String) :
    List Event × JoinOutcome :=
  joinByCode events uid (jsToUpper (qrExtractCode data))

/-! ## Concrete fixtures used by witnesses and counterexamples -/

/-- Fixture: user `A`, the owner of the sample post. -/
def userA : CurrentUser := { uid := "A", email := some "a@example.com" }

/-- Fixture: user `B`, a claimant distinct from the owner. -/
def userB : CurrentUser := { uid := "B", email := some "b@example.com" }

/-- Fixture: a signed-in user with no email on the auth record. -/
def userNoInfo : CurrentUser := { uid := "C", email := none }

/-- Fixture: an unclaimed, uncompleted post owned by user `A`. -/
def basePost : Post :=
  { id := "p1", title := "Pizza", description := "cheese pizza"
    location := none, imageUrl := none, userId := "A"
    userName := some "Alice", userEmail := some "a@example.com"
    claimedBy := none, claimedByName := none, claimedByEmail := none
    completed := false, createdAt := 0 }

/-- Fixture: the same post already claimed by user `B`. -/
def claimedByBPost : Post :=
  { basePost with
    id := "p2"
    claimedBy := some "B"
    claimedByName := some "Bob"
    claimedByEmail := some "b@example.com" }

/-- Fixture: a completed post owned by user `A`. -/
def completedPost : Post :=
  { basePost with id := "p3", completed := true }

/-- Fixture for the analytics scenario: 4 posts, 3 claimed, 2 completed. -/
def analyticsScenario : List Post :=
  [ { basePost with id := "q1", claimedBy := some "B", completed := true },
    { basePost with id := "q2", claimedBy := some "B", completed := true },
    { basePost with id := "q3", claimedBy := some "C" },
    { basePost with id := "q4" } ]

/-! ## Claim theorems -/

/-- Claim C6 — Analytics correctness: on a post list of 4 posts of which 3
have `claimedBy` present and 2 have `completed == true`, the aggregator
yields `totalPosts = 4`, `claimedPosts = 3`, `completedPosts = 2`,
`percentSaved = 75`, `foodWasteLbs = 2.0`; and in general
`percentSaved = round(claimedPosts / totalPosts * 100)` when
`totalPosts > 0` and `0` when `totalPosts = 0`. -/
theorem analytics_scenario_and_percent_formula :
    ((computeAnalytics analyticsScenario).totalPosts = 4
      ∧ (computeAnalytics analyticsScenario).claimedPosts = 3
      ∧ (computeAnalytics analyticsScenario).completedPosts = 2
      ∧ (computeAnalytics analyticsScenario).percentSaved = 75
      ∧ (computeAnalytics analyticsScenario).foodWasteLbs = 2)
    ∧ ∀ ps : List Post,
        (computeAnalytics ps).percentSaved =
          if (computeAnalytics ps).totalPosts > 0 then
            round (((computeAnalytics ps).claimedPosts : ℚ)
              / ((computeAnalytics ps).totalPosts : ℚ) * 100)
          else 0 := by
  have htot : analyticsScenario.length = 4 := by decide
  have hcl : (analyticsScenario.filter fun p => jsTruthy p.claimedBy).length = 3 := by decide
  have hcomp : (analyticsScenario.filter fun p => p.completed).length = 2 := by decide
  refine ⟨⟨htot, hcl, hcomp, ?_, ?_⟩, ?_⟩
  · show (computeAnalytics analyticsScenario).percentSaved = 75
    simp only [computeAnalytics, htot, hcl]
    norm_num [round_eq]
  · show (computeAnalytics analyticsScenario).foodWasteLbs = 2
    simp only [computeAnalytics, htot]
    norm_num
  · intro ps
    rfl

/-- Claim C10 — Frame property of `markComplete`: the update writes only the
`completed` field; `claimedBy`, `claimedByName`, `claimedByEmail`, `title`,
`description`, `userId` and every other field are unchanged, so a post
that was claimed and then completed still counts in the `claimedPosts`
analytics aggregate. -/
theorem markComplete_writes_only_completed (p : Post) (posts : List Post) (postId : String) :
    (markComplete p).completed = true
    ∧ (markComplete p).claimedBy = p.claimedBy
    ∧ (markComplete p).claimedByName = p.claimedByName
    ∧ (markComplete p).claimedByEmail = p.claimedByEmail
    ∧ (markComplete p).title = p.title
    ∧ (markComplete p).description = p.description
    ∧ (markComplete p).userId = p.userId
    ∧ (markComplete p).id = p.id
    ∧ (markComplete p).location = p.location
    ∧ (markComplete p).imageUrl = p.imageUrl
    ∧ (markComplete p).userName = p.userName
    ∧ (markComplete p).userEmail = p.userEmail
    ∧ (markComplete p).createdAt = p.createdAt
    ∧ (computeAnalytics (markCompleteStore posts postId)).claimedPosts
        = (computeAnalytics posts).claimedPosts := by
  have hpt : ∀ q : Post,
      jsTruthy ((if q.id == postId then markComplete q else q).claimedBy)
        = jsTruthy q.claimedBy := by
    intro q
    by_cases h : q.id == postId <;> simp [h, markComplete]
  refine ⟨rfl, rfl, rfl, rfl, rfl, rfl, rfl, rfl, rfl, rfl, rfl, rfl, rfl, ?_⟩
  simp only [computeAnalytics, markCompleteStore]
  induction posts with
  | nil => rfl
  | cons q qs ih =>
    simp only [List.map_cons, List.filter_cons, hpt q]
    by_cases hq : jsTruthy q.claimedBy = true
    · simp [hq]
      simpa using ih
    · simp [hq]
      simpa using ih

/-- Claim C1 — Completion monotonicity: no operation of the modeled protocol
resets `completed` to `false` once set. `claimPost` leaves `completed`
untouched, `markComplete` sets it to `true`, post creation only appends a
new document without altering existing ones (and the join operations write
to the `events` collection, never to posts). A post with
`completed == true` never appears in the active-feed query, which filters
on `completed == false`. -/
theorem completed_monotone (user : CurrentUser) (userName : Option String)
    (eventId : String) (p np : Post) (posts : List Post) :
    ((claimPost user userName eventId p).post.completed = p.completed)
    ∧ ((markComplete p).completed = true)
    ∧ (p.completed = true → p ∉ activeFeed posts)
    ∧ (∀ q ∈ posts, q ∈ addPost posts np) := by
  refine ⟨?_, rfl, ?_, ?_⟩
  · by_cases h : (p.claimedBy == some user.uid) = true <;> simp [claimPost, h]
  · intro hc hmem
    rcases List.mem_filter.mp hmem with ⟨-, hfalse⟩
    rw [hc] at hfalse
    simp at hfalse
  · intro q hq
    exact List.mem_append_left _ hq

/-- Witness for `completed_monotone` at a concrete completed post. -/
theorem completed_monotone_witness :
    ((claimPost userB (some "Bob") "E1" completedPost).post.completed = completedPost.completed)
    ∧ ((markComplete completedPost).completed = true)
    ∧ (completedPost ∉ activeFeed [completedPost])
    ∧ (completedPost ∈ addPost [completedPost] basePost) := by
  obtain ⟨h1, h2, h3, h4⟩ :=
    completed_monotone userB (some "Bob") "E1" completedPost basePost [completedPost]
  exact ⟨h1, h2, h3 rfl, h4 completedPost (by simp)⟩

/-- Claim C3 — Claim toggle symmetry: for a post not owned by the acting
user and currently unclaimed, claiming sets `claimedBy` to the actor and
invoking the claim operation again as the same actor (the unclaim branch)
returns `claimedBy` to absent. -/
theorem claim_unclaim_roundtrip (user : CurrentUser) (n1 n2 : Option String)
    (eventId1 eventId2 : String) (p : Post)
    (_hown : p.userId ≠ user.uid) (hunclaimed : p.claimedBy = none) :
    (claimPost user n1 eventId1 p).post.claimedBy = some user.uid
    ∧ (claimPost user n2 eventId2 (claimPost user n1 eventId1 p).post).post.claimedBy = none := by
  constructor
  · simp [claimPost, hunclaimed]
  · simp [claimPost, hunclaimed]

/-- Witness for `claim_unclaim_roundtrip`: user `B` claims and unclaims
the sample post owned by `A`. -/
theorem claim_unclaim_roundtrip_witness :
    (claimPost userB (some "Bob") "E1" basePost).post.claimedBy = some userB.uid
    ∧ (claimPost userB (some "Bob") "E1"
        (claimPost userB (some "Bob") "E1" basePost).post).post.claimedBy = none :=
  claim_unclaim_roundtrip userB (some "Bob") (some "Bob") "E1" "E1" basePost (by decide) rfl

/-- Claim C4 — Notification targeting: a claim by a non-owner `B` on a post
owned by `A` creates exactly one notification whose `userId` is `A`; a
claim by the owner on their own post creates zero notifications; an
unclaim creates zero notifications. -/
theorem claim_notification_targeting (user : CurrentUser) (userName : Option String)
    (eventId : String) (p : Post) :
    (p.claimedBy ≠ some user.uid → p.userId ≠ user.uid →
      (claimPost user userName eventId p).newNotifications.map Notification.userId = [p.userId])
    ∧ (p.claimedBy ≠ some user.uid → p.userId = user.uid →
      (claimPost user userName eventId p).newNotifications = [])
    ∧ (p.claimedBy = some user.uid →
      (claimPost user userName eventId p).newNotifications = []) := by
  refine ⟨?_, ?_, ?_⟩
  · intro h1 h2
    simp [claimPost, h1, h2]
  · intro h1 h2
    simp [claimPost, h1, h2]
  · intro h1
    simp [claimPost, h1]

/-- Witness for `claim_notification_targeting`: B-claims-A's-post,
A-claims-own-post and B-unclaims, each at concrete documents. -/
theorem claim_notification_targeting_witness :
    ((claimPost userB (some "Bob") "E1" basePost).newNotifications.map Notification.userId
      = [basePost.userId])
    ∧ ((claimPost userA (some "Alice") "E1" basePost).newNotifications = [])
    ∧ ((claimPost userB (some "Bob") "E1" claimedByBPost).newNotifications = []) :=
  ⟨(claim_notification_targeting userB (some "Bob") "E1" basePost).1 (by decide) (by decide),
   (claim_notification_targeting userA (some "Alice") "E1" basePost).2.1 (by decide) rfl,
   (claim_notification_targeting userB (some "Bob") "E1" claimedByBPost).2.2 rfl⟩

/-- Claim C7 — Claim of a post already claimed by a *different* user is
rejected: the claim control is disabled client-side
(`disabled={isClaimed && !isClaimedByMe}` in `renderPost`), so the claim
action reachable through the UI performs no write and `claimedBy` keeps
the existing claimant. The hypothesis `v ≠ ""` encodes that `claimedBy`
holds an actual user id (Firebase uids are nonempty; the empty string
would be falsy in the JavaScript `isClaimed` check). -/
theorem claim_by_other_rejected (user : CurrentUser) (userName : Option String)
    (eventId : String) (p : Post) (v : String)
    (hclaimed : p.claimedBy = some v) (hne : v ≠ user.uid) (hv : v ≠ "") :
    claimPostUI user userName eventId p = { post := p, newNotifications := [] }
    ∧ (claimPostUI user userName eventId p).post.claimedBy = p.claimedBy := by
  have hdis : claimButtonDisabled user p = true := by
    simp [claimButtonDisabled, jsTruthy, hclaimed, hv, hne]
  constructor
  · simp [claimPostUI, hdis]
  · simp [claimPostUI, hdis]

/-- Witness for `claim_by_other_rejected`: user `C` attempts to claim the
post already claimed by `B`. -/
theorem claim_by_other_rejected_witness :
    claimPostUI userNoInfo none "E1" claimedByBPost
      = { post := claimedByBPost, newNotifications := [] }
    ∧ (claimPostUI userNoInfo none "E1" claimedByBPost).post.claimedBy
      = claimedByBPost.claimedBy :=
  claim_by_other_rejected userNoInfo none "E1" claimedByBPost "B" rfl (by decide) (by decide)

/-- Claim C8, counterexample: the claim states the notification message
falls back to the literal string "Anonymous" when neither the claimant
display name nor the email resolves. The source builds the message as
`` `${userName || currentUser.email} claimed your "${postTitle}"` `` with
no "Anonymous" fallback (that fallback exists only in `renderPost`'s
"Posted by" line and in the analytics champions list): when both values
are null, JavaScript interpolates the literal text "null". -/
theorem notification_message_null_counterexample :
    (claimPost userNoInfo none "E1" basePost).newNotifications.map Notification.message
      = ["null claimed your \"Pizza\""]
    ∧ (claimPost userNoInfo none "E1" basePost).newNotifications.map Notification.message
      ≠ ["Anonymous claimed your \"Pizza\""] := by
  constructor
  · decide
  · decide

/-- Claim C8, amended: the notification message is built from the
claimant's display name, falling back to the claimant's email when the
display name does not resolve; when neither the display name nor the
email resolves, the interpolated JavaScript null renders as the literal
text "null" (there is no "Anonymous" fallback in the notification
path). -/
theorem notification_message_fallback (user : CurrentUser) (userName : Option String)
    (eventId : String) (p : Post)
    (hclaim : p.claimedBy ≠ some user.uid) (hown : p.userId ≠ user.uid) :
    (∀ s : String, userName = some s → s ≠ "" →
      (claimPost user userName eventId p).newNotifications.map Notification.message
        = [s ++ " claimed your \"" ++ p.title ++ "\""])
    ∧ (∀ t : String, userName = none → user.email = some t → t ≠ "" →
      (claimPost user userName eventId p).newNotifications.map Notification.message
        = [t ++ " claimed your \"" ++ p.title ++ "\""])
    ∧ (userName = none → user.email = none →
      (claimPost user userName eventId p).newNotifications.map Notification.message
        = ["null" ++ " claimed your \"" ++ p.title ++ "\""]) := by
  refine ⟨?_, ?_, ?_⟩
  · intro s hs hne
    subst hs
    simp [claimPost, hclaim, hown, jsOr, jsTruthy, jsInterp, hne]
  · intro t h1 h2 hne
    subst h1
    simp [claimPost, hclaim, hown, jsOr, jsTruthy, jsInterp, h2, hne]
  · intro h1 h2
    subst h1
    simp [claimPost, hclaim, hown, jsOr, jsTruthy, jsInterp, h2]

/-- Witness for `notification_message_fallback`: user `B` with display
name "Bob" claims the sample post. -/
theorem notification_message_fallback_witness :
    (claimPost userB (some "Bob") "E1" basePost).newNotifications.map Notification.message
      = ["Bob" ++ " claimed your \"" ++ basePost.title ++ "\""] :=
  (notification_message_fallback userB (some "Bob") "E1" basePost
    (by decide) (by decide)).1 "Bob" rfl (by decide)

/-- If the lookup finds an event whose attendee set already contains the
user, `joinByCode` short-circuits to Already Joined without writing. -/
theorem joinByCode_already_member (events : List Event) (uid code : String) (e : Event)
    (hfind : events.find? (fun ev => ev.joinCode == code) = some e)
    (hmem : uid ∈ e.attendees) :
    joinByCode events uid code = (events, .alreadyJoined e.id) := by
  simp [joinByCode, hfind, hmem]

/-- If no event matches the code, `joinByCode` fails with Not Found and
performs no write. -/
theorem joinByCode_not_found (events : List Event) (uid code : String)
    (hnone : ∀ e ∈ events, e.joinCode ≠ code) :
    joinByCode events uid code = (events, .notFound) := by
  have hfind : events.find? (fun ev => ev.joinCode == code) = none := by
    rw [List.find?_eq_none]
    intro e he
    simpa using hnone e he
  simp [joinByCode, hfind]

/-- Claim C5 — Join idempotence: when the lookup on the normalized code
(typed entry: `trim().toUpperCase()`; QR entry: `GRUBIO:` prefix stripped
then `toUpperCase()`) finds an event whose `attendees` already contains
the user, both join paths succeed with Already Joined and leave the event
store — in particular every `attendees` set — unchanged. -/
theorem join_already_member_idempotent (events : List Event) (uid rawCode data : String)
    (e e' : Event)
    (hblank : jsTrim rawCode ≠ "")
    (hfind : events.find? (fun ev => ev.joinCode == jsToUpper (jsTrim rawCode)) = some e)
    (hmem : uid ∈ e.attendees)
    (hfind' : events.find? (fun ev => ev.joinCode == jsToUpper (qrExtractCode data)) = some e')
    (hmem' : uid ∈ e'.attendees) :
    handleJoinEvent events uid rawCode = (events, .alreadyJoined e.id)
    ∧ barcodeScanned events uid data = (events, .alreadyJoined e'.id) := by
  constructor
  · have hb : (jsTrim rawCode == "") = false := by
      simpa using hblank
    simp only [handleJoinEvent, hb, Bool.false_eq_true, if_false]
    exact joinByCode_already_member events uid _ e hfind hmem
  · exact joinByCode_already_member events uid _ e' hfind' hmem'

/-- Claim C9 — Unknown code: when the normalized code matches no event's
`joinCode`, both join paths fail with Not Found and perform no write: the
event store, hence every `attendees` set, is unchanged. -/
theorem join_unknown_code_not_found (events : List Event) (uid rawCode data : String)
    (hblank : jsTrim rawCode ≠ "")
    (hnone : ∀ e ∈ events, e.joinCode ≠ jsToUpper (jsTrim rawCode))
    (hnone' : ∀ e ∈ events, e.joinCode ≠ jsToUpper (qrExtractCode data)) :
    handleJoinEvent events uid rawCode = (events, .notFound)
    ∧ barcodeScanned events uid data = (events, .notFound) := by
  constructor
  · have hb : (jsTrim rawCode == "") = false := by
      simpa using hblank
    simp only [handleJoinEvent, hb, Bool.false_eq_true, if_false]
    exact joinByCode_not_found events uid _ hnone
  · exact joinByCode_not_found events uid _ hnone'

/-- Fixture: an event with join code `ABC123`, created and attended by
user `A`. -/
def eventA : Event :=
  { id := "E1", title := "Tailgate", description := "food"
    createdBy := "A", attendees := ["A"], joinCode := "ABC123" }

/-- Witness for `join_already_member_idempotent`: user `A` re-joins the
event via the typed code `abc123` and via the QR payload
`GRUBIO:ABC123`. -/
theorem join_already_member_idempotent_witness :
    handleJoinEvent [eventA] "A" " abc123 " = ([eventA], .alreadyJoined eventA.id)
    ∧ barcodeScanned [eventA] "A" "GRUBIO:ABC123" = ([eventA], .alreadyJoined eventA.id) :=
  join_already_member_idempotent [eventA] "A" " abc123 " "GRUBIO:ABC123" eventA eventA
    (by decide) (by decide) (by decide) (by decide) (by decide)

/-- Witness for `join_unknown_code_not_found`: no event carries code
`ZZZZZZ`. -/
theorem join_unknown_code_not_found_witness :
    handleJoinEvent [eventA] "B" "zzzzzz" = ([eventA], .notFound)
    ∧ barcodeScanned [eventA] "B" "GRUBIO:ZZZZZZ" = ([eventA], .notFound) :=
  join_unknown_code_not_found [eventA] "B" "zzzzzz" "GRUBIO:ZZZZZZ"
    (by decide) (by decide) (by decide)

/-- Every string produced by `generateJoinCode` is a 6-character string
over the uppercase-alphanumeric alphabet. -/
theorem generateJoinCode_valid (f : Fin 6 → Fin 36) :
    isValidJoinCode (generateJoinCode f) = true := by
  have htl : (generateJoinCode f).toList
      = (List.finRange 6).map (fun i => joinCodeChars.get (Fin.cast joinCodeChars_length (f i))) := rfl
  have hlen : (generateJoinCode f).length
      = ((List.finRange 6).map (fun i => joinCodeChars.get (Fin.cast joinCodeChars_length (f i)))).length := rfl
  rw [isValidJoinCode, Bool.and_eq_true]
  constructor
  · rw [hlen]
    simp
  · rw [List.all_eq_true]
    intro c hc
    rw [htl] at hc
    rcases List.mem_map.mp hc with ⟨i, -, rfl⟩
    simp

/-- Characterization: `isJoinCodeUnique` holds exactly when no existing event carries the
code. -/
theorem isJoinCodeUnique_iff (events : List Event) (c : String) :
    isJoinCodeUnique events c = true ↔ ∀ e ∈ events, e.joinCode ≠ c := by
  simp [isJoinCodeUnique, List.isEmpty_iff, List.filter_eq_nil_iff]

/-- Any code returned by the generate-and-check retry loop is unique with
respect to the events it checked against, and is a valid 6-character
uppercase-alphanumeric code. -/
theorem findUniqueJoinCode_spec (events : List Event) (rnd : ℕ → Fin 6 → Fin 36)
    (a fuel : ℕ) (c : String)
    (h : findUniqueJoinCode events rnd a fuel = some c) :
    isJoinCodeUnique events c = true ∧ isValidJoinCode c = true := by
  induction fuel generalizing a with
  | zero => simp [findUniqueJoinCode] at h
  | succ n ih =>
    simp only [findUniqueJoinCode] at h
    by_cases hu : isJoinCodeUnique events (generateJoinCode (rnd a)) = true
    · rw [if_pos hu] at h
      obtain rfl : generateJoinCode (rnd a) = c := by simpa using h
      exact ⟨hu, generateJoinCode_valid _⟩
    · rw [if_neg hu] at h
      exact ih (a + 1) h

/-- Claim C2 — Join-code uniqueness (single-writer): across any run of N
sequential event creations, the codes produced by the generate-and-check
retry loop are pairwise distinct, and every code returned is a
6-character string over the alphabet A–Z, 0–9. -/
theorem joinCodes_distinct_and_valid (fuel : ℕ) (rnds : ℕ → ℕ → Fin 6 → Fin 36)
    (reqs : List EventReq) (events₀ : List Event) (k₀ : ℕ)
    (st : List Event) (codes : List String)
    (h : runCreateEvents fuel rnds reqs events₀ k₀ = some (st, codes)) :
    codes.Nodup ∧ ∀ c ∈ codes, isValidJoinCode c = true := by
  have main : ∀ (rs : List EventReq) (events : List Event) (k : ℕ)
      (st : List Event) (codes : List String),
      runCreateEvents fuel rnds rs events k = some (st, codes) →
      codes.Nodup ∧ (∀ c ∈ codes, isValidJoinCode c = true)
        ∧ (∀ c ∈ codes, isJoinCodeUnique events c = true) := by
    intro rs
    induction rs with
    | nil =>
      intro events k st codes h
      simp only [runCreateEvents, Option.some.injEq, Prod.mk.injEq] at h
      obtain ⟨-, rfl⟩ := h
      simp
    | cons r rs ih =>
      intro events k st codes h
      simp only [runCreateEvents, Option.bind_eq_some, Option.map_eq_some'] at h
      obtain ⟨code, hf, ⟨st', codes'⟩, hr, hpair⟩ := h
      obtain ⟨rfl, rfl⟩ : st' = st ∧ code :: codes' = codes := by
        simpa [Prod.ext_iff] using hpair
      obtain ⟨hnd, hval, huniq⟩ := ih (events ++ [createEventDoc r code]) (k + 1) st' codes' hr
      obtain ⟨hu, hv⟩ := findUniqueJoinCode_spec events (rnds k) 0 fuel code hf
      refine ⟨?_, ?_, ?_⟩
      · refine List.nodup_cons.mpr ⟨?_, hnd⟩
        intro hmem
        have hcu := huniq code hmem
        rw [isJoinCodeUnique_iff] at hcu
        exact hcu (createEventDoc r code) (by simp) rfl
      · intro c hc
        rcases List.mem_cons.mp hc with rfl | hc'
        · exact hv
        · exact hval c hc'
      · intro c hc
        rcases List.mem_cons.mp hc with rfl | hc'
        · exact hu
        · have hcu := huniq c hc'
          rw [isJoinCodeUnique_iff] at hcu ⊢
          intro e he
          exact hcu e (by simp [he])
  obtain ⟨h1, h2, -⟩ := main reqs events₀ k₀ st codes h
  exact ⟨h1, h2⟩

/-- Fixture: two event-creation requests. -/
def demoReqs : List EventReq :=
  [ { id := "E1", uid := "A", title := "T1", description := "D1" },
    { id := "E2", uid := "B", title := "T2", description := "D2" } ]

/-- Fixture: a deterministic random stream — the `k`-th creation's
`a`-th attempt samples the symbol `k + a` of the alphabet in every
position. -/
def demoRnds : ℕ → ℕ → Fin 6 → Fin 36 := fun k a _ => Fin.ofNat (k + a)

/-- Witness for `joinCodes_distinct_and_valid`: two sequential creations
from an empty store produce the distinct valid codes `AAAAAA` and
`BBBBBB`. -/
theorem joinCodes_distinct_and_valid_witness :
    (["AAAAAA", "BBBBBB"] : List String).Nodup
    ∧ ∀ c ∈ (["AAAAAA", "BBBBBB"] : List String), isValidJoinCode c = true :=
  joinCodes_distinct_and_valid 2 demoRnds demoReqs [] 0
    [createEventDoc { id := "E1", uid := "A", title := "T1", description := "D1" } "AAAAAA",
     createEventDoc { id := "E2", uid := "B", title := "T2", description := "D2" } "BBBBBB"]
    ["AAAAAA", "BBBBBB"] (by decide)
